import Mathlib

/-!
Verification of the climate-risk research assistant (src/main.py) against its
design specification.  The Python source is shallowly embedded: Python strings
become Lean `String` (a sequence of unicode code points, matching Python
semantics for `len` and slicing), Python dicts with known keys become
structures with `Option` fields for keys that may be absent, and the
exception-or-value outcome of the orchestrator call becomes `Except`.
-/

namespace InnovateHer

/-- A raw search result as handed to the report formatter: a dict that may or
may not carry the keys title, url, content (accessed via `.get` with a
default in the source). -/
structure RawResult where
  title : Option String
  url : Option String
  content : Option String
deriving DecidableEq

/-- The SearchResult shape built by `generate_structured_report` for each raw
result (src/main.py lines 162-166). -/
structure SearchResult where
  title : String
  url : String
  content : String
deriving DecidableEq

/-- Python slicing `s[:n]` on a string: the first `n` code points. -/
def pySlice (s : String) (n : Nat) : String :=
  String.mk (s.data.take n)

/-- The per-result mapping performed inside the loop of
`generate_structured_report` (src/main.py lines 162-166):
title defaults to "Untitled", url defaults to "#", and content is
`result.get("content", "")[:500] + "..."`. -/
def mkSource (result : RawResult) : SearchResult :=
  { title := result.title.getD "Untitled"
    url := result.url.getD "#"
    content := pySlice (result.content.getD "") 500 ++ "..." }

/-- One recorded intermediate step of the agent executor: `step[0].tool` is
the tool name of the action, `step[1]` is the observation dict whose
"results" key may be absent (read with `.get("results", [])`). -/
structure AgentStep where
  tool : String
  results : Option (List RawResult)
deriving DecidableEq

/-- The orchestrator result passed to `generate_structured_report`.
`output` models `response.get("output", "")` (key possibly absent);
`has_intermediate_steps_attr` models the Python `hasattr(response,
'intermediate_steps')` test on line 158 -- attribute presence, which for the
dict actually returned by `AgentExecutor.invoke` is distinct from key
presence; `intermediate_steps` is the recorded step list itself. -/
structure AgentResponse where
  output : Option String
  has_intermediate_steps_attr : Bool
  intermediate_steps : List AgentStep
deriving DecidableEq

/-- The fixed-shape report dict built by `generate_structured_report`
(src/main.py lines 147-152). -/
structure Report where
  summary : String
  key_findings : List String
  sources : List SearchResult
  insurance_implications : String
deriving DecidableEq

/-- Embedding of `generate_structured_report` (src/main.py lines 144-169):
the report starts from empty defaults, `summary` is set to
`response.get("output", "")`, and sources are appended only under the
`hasattr(response, 'intermediate_steps')` guard, filtering steps whose tool
name is "tavily_search" and flattening each step's "results" list through
the per-result mapping. -/
def generate_structured_report (response : AgentResponse) : Report :=
  { summary := response.output.getD ""
    key_findings := []
    sources :=
      if response.has_intermediate_steps_attr then
        (response.intermediate_steps.filter
            (fun step => step.tool = "tavily_search")).flatMap
          (fun step => (step.results.getD []).map mkSource)
      else []
    insurance_implications := "" }

/-- The value `AgentExecutor.invoke` returns is a Python dict (src/main.py
line 210); a dict carries its data as keys, not attributes, so
`hasattr(response, 'intermediate_steps')` is False on it even when the
corresponding key is present.  This constructor builds the dict-shaped
orchestrator result. -/
def dictResponse (output : Option String) (steps : List AgentStep) :
    AgentResponse :=
  { output := output
    has_intermediate_steps_attr := false
    intermediate_steps := steps }

end InnovateHer

namespace InnovateHer

-- Helper lemmas about slicing.

theorem pySlice_of_length_le (s : String) (n : Nat) (h : s.length ≤ n) :
    pySlice s n = s := by
  unfold pySlice
  have hd : s.data.length ≤ n := h
  rw [List.take_of_length_le hd]

/-- Claim C1, counterexample: the claim that a raw content string of length
at most 500 is stored unchanged with no marker is false -- for the raw
content "abc" (length 3) the stored content is "abc...", not "abc". -/
theorem truncation_claim_counterexample :
    ("abc" : String).length ≤ 500 ∧
      (mkSource ⟨none, none, some "abc"⟩).content ≠ "abc" := by
  constructor
  · decide
  · decide

/-- Claim C1 (amended): the code appends the ellipsis marker
unconditionally -- for raw content longer than 500 characters the stored
content is the first 500 characters followed by "...", and for raw content
of length at most 500 the stored content is the whole raw content followed
by "..." (never the raw content unchanged). -/
theorem truncation_amended (r : RawResult) (c : String)
    (h : r.content = some c) :
    (mkSource r).content = pySlice c 500 ++ "..." ∧
      (c.length ≤ 500 → (mkSource r).content = c ++ "...") := by
  constructor
  · simp [mkSource, h]
  · intro hle
    simp [mkSource, h, pySlice_of_length_le c 500 hle]

/-- Claim C1, witness for the amended theorem at a concrete input. -/
theorem truncation_amended_witness :
    (mkSource ⟨none, none, some "abc"⟩).content = "abc" ++ "..." :=
  (truncation_amended ⟨none, none, some "abc"⟩ "abc" rfl).2 (by decide)

/-- Claim C3: default substitution -- a missing title yields "Untitled", a
missing url yields "#", and a present title or url is copied through
unchanged. -/
theorem default_substitution (r : RawResult) :
    (r.title = none → (mkSource r).title = "Untitled") ∧
      (∀ t, r.title = some t → (mkSource r).title = t) ∧
      (r.url = none → (mkSource r).url = "#") ∧
      (∀ u, r.url = some u → (mkSource r).url = u) := by
  refine ⟨?_, ?_, ?_, ?_⟩
  · intro h; simp [mkSource, h]
  · intro t h; simp [mkSource, h]
  · intro h; simp [mkSource, h]
  · intro u h; simp [mkSource, h]

/-- Claim C3, witness at concrete inputs: a result missing both title and
url gets the defaults, and present fields pass through. -/
theorem default_substitution_witness :
    (mkSource ⟨none, none, some "x"⟩).title = "Untitled" ∧
      (mkSource ⟨none, none, some "x"⟩).url = "#" ∧
      (mkSource ⟨some "T", some "U", some "x"⟩).title = "T" ∧
      (mkSource ⟨some "T", some "U", some "x"⟩).url = "U" :=
  ⟨(default_substitution ⟨none, none, some "x"⟩).1 rfl,
   (default_substitution ⟨none, none, some "x"⟩).2.2.1 rfl,
   (default_substitution ⟨some "T", some "U", some "x"⟩).2.1 "T" rfl,
   (default_substitution ⟨some "T", some "U", some "x"⟩).2.2.2 "U" rfl⟩

/-- Claim C4: for every orchestrator result the report's key_findings is
the empty sequence and insurance_implications is the empty default text;
neither is derived from the orchestrator output. -/
theorem placeholder_fields_always_default (response : AgentResponse) :
    (generate_structured_report response).key_findings = [] ∧
      (generate_structured_report response).insurance_implications = "" :=
  ⟨rfl, rfl⟩

/-- Claim C5: the report formatter is a pure function -- equal orchestrator
results yield equal reports, and two invocations on the same result yield
identical reports. -/
theorem formatter_pure (r1 r2 : AgentResponse) (h : r1 = r2) :
    generate_structured_report r1 = generate_structured_report r2 ∧
      generate_structured_report r1 = generate_structured_report r1 := by
  rw [h]
  exact ⟨rfl, rfl⟩

/-- Claim C5, witness at a concrete orchestrator result. -/
theorem formatter_pure_witness :
    generate_structured_report (dictResponse (some "ans") []) =
      generate_structured_report (dictResponse (some "ans") []) :=
  (formatter_pure (dictResponse (some "ans") [])
    (dictResponse (some "ans") []) rfl).1

/-- Claim C6: the formatter has no failure mode of its own -- it is a total
function; a result with no output key yields the empty summary, missing or
empty tool-invocation records yield the empty sources list, the placeholder
fields are always the empty defaults, and when the output is present the
summary equals it verbatim. -/
theorem formatter_no_failure (response : AgentResponse) :
    (response.output = none → (generate_structured_report response).summary = "") ∧
      (∀ s, response.output = some s →
        (generate_structured_report response).summary = s) ∧
      (response.intermediate_steps = [] →
        (generate_structured_report response).sources = []) ∧
      (generate_structured_report response).key_findings = [] ∧
      (generate_structured_report response).insurance_implications = "" := by
  refine ⟨?_, ?_, ?_, rfl, rfl⟩
  · intro h; simp [generate_structured_report, h]
  · intro s h; simp [generate_structured_report, h]
  · intro h; simp [generate_structured_report, h]

/-- Claim C6, witness: a malformed orchestrator result with no output key
and no recorded steps yields the all-default report, and a present output
is copied verbatim. -/
theorem formatter_no_failure_witness :
    (generate_structured_report ⟨none, false, []⟩).summary = "" ∧
      (generate_structured_report ⟨some "final answer", false, []⟩).summary =
        "final answer" :=
  ⟨(formatter_no_failure ⟨none, false, []⟩).1 rfl,
   (formatter_no_failure ⟨some "final answer", false, []⟩).2.1
     "final answer" rfl⟩

/-- Claim C2 (code bug): for every orchestrator result of the dict shape
actually returned by `AgentExecutor.invoke`, the report's sources list is
empty -- even when the result records search-tool invocations with
non-empty result lists -- because the `hasattr` guard never sees a dict
key as an attribute, so the extraction loop is unreachable. -/
theorem sources_extraction_dead_code (output : Option String)
    (steps : List AgentStep) :
    (generate_structured_report (dictResponse output steps)).sources = [] :=
  rfl

/-- One chat message of the conversation session, a dict with role and
content (src/main.py lines 183 and 245-248). -/
structure Message where
  role : String
  content : String
deriving DecidableEq

/-- Observable outcome of one run of the chat-input handler: the session
message list afterwards, the error banner shown (if any), whether the
external agent invocation was reached, and the report produced (if any). -/
structure Outcome where
  messages : List Message
  displayed_error : Option String
  external_call : Bool
  report : Option Report
deriving DecidableEq

/-- Embedding of the chat-input handler (src/main.py lines 182-252).  The
user message is appended first (line 183); then the key check on line 189
uses Python truthiness, so an empty string rejects with the blocking error
and `st.stop()` (lines 190-191) before any external call.  Otherwise the
agent is built and invoked inside the `try` block; `invoke_result` is the
outcome the external orchestrator call would produce: an exception
(`Except.error`, caught on lines 250-252 and shown as a single error) or a
response (`Except.ok`), in which case the report is generated, displayed,
and the assistant message with the report summary is appended (lines
245-248). -/
def chat_input_handler (tavily_key openai_key : String)
    (messages : List Message) (prompt : String)
    (invoke_result : Except String AgentResponse) : Outcome :=
  let messages1 := messages ++ [{ role := "user", content := prompt }]
  if tavily_key = "" ∨ openai_key = "" then
    { messages := messages1
      displayed_error := some "Please provide both API keys in the sidebar"
      external_call := false
      report := none }
  else
    match invoke_result with
    | Except.error e =>
        { messages := messages1
          displayed_error := some ("Research failed: " ++ e)
          external_call := true
          report := none }
    | Except.ok response =>
        let report := generate_structured_report response
        { messages := messages1 ++
            [{ role := "assistant", content := report.summary }]
          displayed_error := none
          external_call := true
          report := some report }

/-- The two messages a successful turn contributes to the session: the user
prompt and the assistant reply carrying the report summary. -/
def turn_pair (turn : String × AgentResponse) : List Message :=
  [{ role := "user", content := turn.1 },
   { role := "assistant",
     content := (generate_structured_report turn.2).summary }]

/-- Run a sequence of user turns through the chat-input handler, each turn
carrying its prompt and the orchestrator response it succeeds with,
threading the session message list. -/
def run_turns (tavily_key openai_key : String) (messages : List Message)
    (turns : List (String × AgentResponse)) : List Message :=
  turns.foldl
    (fun acc turn =>
      (chat_input_handler tavily_key openai_key acc turn.1
        (Except.ok turn.2)).messages)
    messages

/-- Boolean check that a message list is a chronological sequence of
(user, assistant) pairs: strict role alternation starting with a user
message and of even length. -/
def pairs_user_assistant : List Message → Bool
  | [] => true
  | _ :: [] => false
  | m1 :: m2 :: rest =>
      m1.role = "user" && m2.role = "assistant" && pairs_user_assistant rest

/-- Ambient sidebar state read by the agent-building code (src/main.py
lines 49-79): the search tool is configured from these module-level
variables, not from the function parameters. -/
structure SidebarState where
  tavily_api_key : String
  search_depth : String
  max_results : Nat
  selected_domains : List String
deriving DecidableEq

/-- Configuration of the chat model built on src/main.py lines 102-106. -/
structure ChatOpenAIConfig where
  temperature : Nat
  model : String
  api_key : String
deriving DecidableEq

/-- Configuration of the Tavily search tool built on src/main.py lines
108-115. -/
structure TavilySearchResultsTool where
  max_results : Nat
  search_depth : String
  include_answer : Bool
  include_raw_content : Bool
  include_domains : List String
  tavily_api_key : String
deriving DecidableEq

/-- The agent executor assembled by the initialization function: the
language model plus the search tool it is wired to. -/
structure AgentExec where
  llm : ChatOpenAIConfig
  tool : TavilySearchResultsTool
deriving DecidableEq

/-- Embedding of `initialize_agent(openai_key, tavily_key)` (src/main.py
lines 99-140).  The language model uses the `openai_key` parameter, but the
search tool is configured entirely from the ambient sidebar state: line 114
reads the module-level `tavily_api_key`, and lines 109-113 read the
module-level `max_results`, `search_depth` and `selected_domains`; the
`tavily_key` parameter is never read. -/
def initAgent (env : SidebarState) (openai_key tavily_key : String) :
    AgentExec :=
  { llm := { temperature := 0
             model := "gpt-4-1106-preview"
             api_key := openai_key }
    tool := { max_results := env.max_results
              search_depth := env.search_depth
              include_answer := true
              include_raw_content := true
              include_domains := env.selected_domains
              tavily_api_key := env.tavily_api_key } }

-- Helper lemmas about the handler and turn runs.

theorem chat_success_messages (tkey okey : String) (msgs : List Message)
    (p : String) (resp : AgentResponse) (h : ¬(tkey = "" ∨ okey = "")) :
    (chat_input_handler tkey okey msgs p (Except.ok resp)).messages =
      msgs ++ turn_pair (p, resp) := by
  simp [chat_input_handler, h, turn_pair]

theorem run_turns_closed_form (tkey okey : String)
    (h : ¬(tkey = "" ∨ okey = "")) (turns : List (String × AgentResponse)) :
    ∀ msgs, run_turns tkey okey msgs turns =
      msgs ++ turns.flatMap turn_pair := by
  induction turns with
  | nil => intro msgs; simp [run_turns]
  | cons t ts ih =>
      intro msgs
      have hstep : run_turns tkey okey msgs (t :: ts) =
          run_turns tkey okey (msgs ++ turn_pair t) ts := by
        simp [run_turns, chat_success_messages tkey okey msgs t.1 t.2 h]
      rw [hstep, ih, List.flatMap_cons, List.append_assoc]

theorem flatMap_turn_pair_length (turns : List (String × AgentResponse)) :
    (turns.flatMap turn_pair).length = 2 * turns.length := by
  induction turns with
  | nil => rfl
  | cons t ts ih =>
      rw [List.flatMap_cons]
      simp only [List.length_append, List.length_cons, ih, turn_pair]
      simp
      omega

theorem flatMap_turn_pair_alt (turns : List (String × AgentResponse)) :
    pairs_user_assistant (turns.flatMap turn_pair) = true := by
  induction turns with
  | nil => rfl
  | cons t ts ih =>
      rw [List.flatMap_cons]
      simp [turn_pair, pairs_user_assistant, ih]

/-- Claim C7: with either API key empty at query time, the query is
rejected before any external call, the blocking error is displayed, no
report is produced, and the session ends with the user message appended
and unanswered (no assistant message). -/
theorem missing_credential_rejection (tkey okey : String)
    (msgs : List Message) (p : String)
    (inv : Except String AgentResponse) (h : tkey = "" ∨ okey = "") :
    (chat_input_handler tkey okey msgs p inv).external_call = false ∧
      (chat_input_handler tkey okey msgs p inv).displayed_error =
        some "Please provide both API keys in the sidebar" ∧
      (chat_input_handler tkey okey msgs p inv).messages =
        msgs ++ [{ role := "user", content := p }] ∧
      (chat_input_handler tkey okey msgs p inv).report = none ∧
      (chat_input_handler tkey okey msgs p inv).messages.getLast? =
        some { role := "user", content := p } := by
  refine ⟨?_, ?_, ?_, ?_, ?_⟩ <;> simp [chat_input_handler, h]

/-- Claim C7, witness: an empty Tavily key at a concrete query. -/
theorem missing_credential_rejection_witness :
    (chat_input_handler "" "sk-key" [] "flood risk?"
        (Except.error "never reached")).external_call = false ∧
      (chat_input_handler "" "sk-key" [] "flood risk?"
        (Except.error "never reached")).messages.getLast? =
        some { role := "user", content := "flood risk?" } :=
  ⟨(missing_credential_rejection "" "sk-key" [] "flood risk?"
      (Except.error "never reached") (Or.inl rfl)).1,
   (missing_credential_rejection "" "sk-key" [] "flood risk?"
      (Except.error "never reached") (Or.inl rfl)).2.2.2.2⟩

/-- Claim C8: when the orchestrator run raises, the exception is caught at
the top level of query handling, a single error message is displayed, no
report is produced, and the session keeps the user question with no
assistant reply for that turn. -/
theorem failure_atomicity (tkey okey : String) (msgs : List Message)
    (p e : String) (h : ¬(tkey = "" ∨ okey = "")) :
    (chat_input_handler tkey okey msgs p (Except.error e)).report = none ∧
      (chat_input_handler tkey okey msgs p (Except.error e)).displayed_error =
        some ("Research failed: " ++ e) ∧
      (chat_input_handler tkey okey msgs p (Except.error e)).messages =
        msgs ++ [{ role := "user", content := p }] := by
  refine ⟨?_, ?_, ?_⟩ <;> simp [chat_input_handler, h]

/-- Claim C8, witness: a simulated network fault at a concrete query. -/
theorem failure_atomicity_witness :
    (chat_input_handler "tvly-key" "sk-key" [] "q"
        (Except.error "network down")).report = none ∧
      (chat_input_handler "tvly-key" "sk-key" [] "q"
        (Except.error "network down")).messages =
        [{ role := "user", content := "q" }] :=
  ⟨(failure_atomicity "tvly-key" "sk-key" [] "q" "network down"
      (by decide)).1,
   (failure_atomicity "tvly-key" "sk-key" [] "q" "network down"
      (by decide)).2.2⟩

/-- Claim C9: starting from the empty session, N user turns each followed
by a successful assistant reply leave exactly 2N messages in strict
chronological (user, assistant) alternation; moreover each successful turn
only appends its user message and assistant reply to the existing session
(append-only, no in-place edits). -/
theorem session_append_law (tkey okey : String)
    (turns : List (String × AgentResponse)) (h : ¬(tkey = "" ∨ okey = "")) :
    (run_turns tkey okey [] turns).length = 2 * turns.length ∧
      pairs_user_assistant (run_turns tkey okey [] turns) = true ∧
      (∀ msgs p resp,
        (chat_input_handler tkey okey msgs p (Except.ok resp)).messages =
          msgs ++ [{ role := "user", content := p },
                   { role := "assistant",
                     content := (generate_structured_report resp).summary }]) := by
  have hc := run_turns_closed_form tkey okey h turns []
  rw [List.nil_append] at hc
  refine ⟨?_, ?_, ?_⟩
  · rw [hc, flatMap_turn_pair_length]
  · rw [hc]; exact flatMap_turn_pair_alt turns
  · intro msgs p resp
    exact chat_success_messages tkey okey msgs p resp h

/-- A concrete two-turn session used to witness the session-append law. -/
def demo_turns : List (String × AgentResponse) :=
  [("q1", dictResponse (some "a1") []),
   ("q2", dictResponse (some "a2") [])]

/-- Claim C9, witness: two successful turns from the empty session give
four messages in (user, assistant) alternation. -/
theorem session_append_law_witness :
    (run_turns "tvly-key" "sk-key" [] demo_turns).length =
        2 * demo_turns.length ∧
      pairs_user_assistant (run_turns "tvly-key" "sk-key" [] demo_turns) =
        true :=
  ⟨(session_append_law "tvly-key" "sk-key" demo_turns (by decide)).1,
   (session_append_law "tvly-key" "sk-key" demo_turns (by decide)).2.1⟩

/-- Claim C10: the agent-initialization function ignores its tavily_key
parameter entirely -- for any two values of that argument the constructed
executor is identical, and the search tool's credentials and search
parameters all come from the ambient sidebar state. -/
theorem tavily_key_param_ignored (env : SidebarState)
    (okey tkey1 tkey2 : String) :
    initAgent env okey tkey1 = initAgent env okey tkey2 ∧
      (initAgent env okey tkey1).tool.tavily_api_key = env.tavily_api_key ∧
      (initAgent env okey tkey1).tool.max_results = env.max_results ∧
      (initAgent env okey tkey1).tool.search_depth = env.search_depth ∧
      (initAgent env okey tkey1).tool.include_domains =
        env.selected_domains :=
  ⟨rfl, rfl, rfl, rfl, rfl⟩

end InnovateHer
